import Mathlib

/-!
Verification development for the embedded authentication flow engine of the
repository (BaseSignIn component: flow controller, redirect completion
coordinator, passkey assertion bridge, authenticator classifier).

The definitions below are a shallow embedding of the TypeScript source.
JavaScript strings are Lean `String`s, JavaScript truthiness of an optional
string is `truthyS`, optional chaining (`a?.b`) is `Option.bind`, and the
asynchronous transport (`onSubmit`) is modelled by passing the response the
transport would return as an explicit argument.
-/

namespace AuthFlow

/-- JavaScript truthiness for an optional string: `undefined`/`null` and the
empty string are falsy. -/
def truthyS : Option String → Bool
  | some s => !s.data.isEmpty
  | none => false

/-- JavaScript `!value || value.trim() === ''` for an optional string value. -/
def blankVal : Option String → Bool
  | some s => s.data.all Char.isWhitespace
  | none => true

/-- Check whether the list `s` starts with the list `pat`. -/
def listStarts : List Char → List Char → Bool
  | _, [] => true
  | [], _ :: _ => false
  | a :: as, b :: bs => a = b && listStarts as bs

/-- Check whether `pat` occurs as a contiguous sublist of `s`. -/
def occursIn (pat : List Char) : List Char → Bool
  | [] => pat.isEmpty
  | c :: rest => listStarts (c :: rest) pat || occursIn pat rest

/-- JavaScript `s.includes(pat)`. -/
def jsIncludes (s pat : String) : Bool := occursIn pat.data s.data

/-- Drop characters up to and including the first occurrence of `c`; empty if
`c` does not occur. -/
def dropThrough (c : Char) : List Char → List Char
  | [] => []
  | x :: xs => if x = c then xs else dropThrough c xs

/-- Take characters up to (excluding) the first occurrence of `c`. -/
def takeUntil (c : Char) : List Char → List Char
  | [] => []
  | x :: xs => if x = c then [] else x :: takeUntil c xs

/-- Split a character list on a separator character. -/
def splitOnChar (sep : Char) : List Char → List (List Char)
  | [] => [[]]
  | c :: rest =>
    let r := splitOnChar sep rest
    if c = sep then [] :: r
    else
      match r with
      | [] => [[c]]
      | h :: t => (c :: h) :: t

/-- Join character lists with a separator character. -/
def joinWith (sep : Char) : List (List Char) → List Char
  | [] => []
  | [x] => x
  | x :: xs => x ++ sep :: joinWith sep xs

/-- Model of `new URL(url).searchParams.get(key)`: the value of the first `key=` entry
of the query string (between the first `?` and a `#`), `none` when absent. -/
def searchParamGet (url key : String) : Option String :=
  let q := takeUntil '#' (dropThrough '?' url.data)
  (splitOnChar '&' q).findSome? fun kv =>
    match splitOnChar '=' kv with
    | [] => none
    | k :: vs => if k = key.data then some (String.mk (joinWith '=' vs)) else none

/-- Split `scheme://rest` at the first `://` marker. -/
def splitScheme : List Char → Option (List Char × List Char)
  | [] => none
  | x :: xs =>
    if listStarts (x :: xs) [':', '/', '/'] then some ([], xs.drop 2)
    else
      match splitScheme xs with
      | some (s, r) => some (x :: s, r)
      | none => none

/-- Model of `new URL(u).origin`: scheme plus host of an absolute URL. -/
def urlOrigin (u : String) : String :=
  match splitScheme u.data with
  | none => u
  | some (scheme, rest) =>
    String.mk (scheme ++ [':', '/', '/'] ++ takeUntil '#' (takeUntil '?' (takeUntil '/' rest)))

/-- Look up a key in an association list of string pairs. -/
def lookupVal (vals : List (String × String)) (k : String) : Option String :=
  (vals.find? fun p => p.1 = k).map (·.2)

/-! ## Data model (from the source's response/authenticator shapes) -/

/-- The `EmbeddedSignInFlowAuthenticatorPromptType` enum. -/
inductive PromptType
  | userPrompt
  | internalPrompt
  | redirectionPrompt
deriving DecidableEq, Repr

/-- The `EmbeddedSignInFlowStepType` enum. -/
inductive StepType
  | authenticatorPrompt
  | multiOptionsPrompt
deriving DecidableEq, Repr

/-- The `EmbeddedSignInFlowStatus` enum. -/
inductive FlowStatus
  | inProgress
  | successCompleted
  | failCompleted
  | failIncomplete
deriving DecidableEq, Repr

/-- One entry of `metadata.params`. -/
structure ParamSpec where
  param : String
deriving DecidableEq, Repr

/-- The `metadata.additionalData` record. -/
structure AddData where
  challengeData : Option String := none
  redirectUrl : Option String := none
deriving DecidableEq, Repr

/-- Authenticator `metadata` (all fields reached via optional chaining in the
source). -/
structure AuthMeta where
  promptType : Option PromptType := none
  params : Option (List ParamSpec) := none
  additionalData : Option AddData := none
deriving DecidableEq, Repr

/-- An `EmbeddedSignInFlowAuthenticator` descriptor. -/
structure Authenticator where
  authenticatorId : String
  idp : String := ""
  metadata : Option AuthMeta := none
  requiredParams : List String := []
deriving DecidableEq, Repr

/-- Optional chain `authenticator.metadata?.promptType`. -/
def metaPromptType (a : Authenticator) : Option PromptType :=
  a.metadata.bind (·.promptType)

/-- Optional chain `authenticator.metadata?.params || []` (the shape used to derive form
fields). -/
def metaParams (a : Authenticator) : List ParamSpec :=
  ((a.metadata.bind (·.params)).getD [])

/-- Optional chain `authenticator.metadata?.params` as present-or-absent (for the
`hasParams` check of `handleAuthenticatorSelection`). -/
def metaParamsOpt (a : Authenticator) : Option (List ParamSpec) :=
  a.metadata.bind (·.params)

/-- Optional chain `(authenticator.metadata as any)?.additionalData?.challengeData`. -/
def challengeDataOf (a : Authenticator) : Option String :=
  (a.metadata.bind (·.additionalData)).bind (·.challengeData)

/-- Optional chain `(authenticator.metadata as any)?.additionalData?.redirectUrl`. -/
def redirectUrlOf (a : Authenticator) : Option String :=
  (a.metadata.bind (·.additionalData)).bind (·.redirectUrl)

/-- One entry of `nextStep.messages`. -/
structure MsgItem where
  type : Option String := none
  message : Option String := none
deriving DecidableEq, Repr

/-- The `response.nextStep` payload. -/
structure Step where
  stepType : StepType
  authenticators : List Authenticator := []
  messages : Option (List MsgItem) := none
deriving DecidableEq, Repr

/-- One entry of `response.links` (submission target). -/
structure ReqLink where
  method : String := "POST"
  href : String := ""
deriving DecidableEq, Repr

/-- A flow response, as returned by `onInitialize`/`onSubmit`
(`EmbeddedSignInFlowInitiateResponse` / `EmbeddedSignInFlowHandleResponse`);
`nextStep = none` models a response without a `nextStep` key. -/
structure FlowResponse where
  flowId : String
  flowStatus : FlowStatus
  nextStep : Option Step := none
  links : List ReqLink := []
deriving DecidableEq, Repr

/-- The payload handed to the `onSubmit` transport:
`{flowId, selectedAuthenticator: {authenticatorId, params}}`. -/
structure SubmissionPayload where
  flowId : String
  authenticatorId : String
  params : List (String × String)
deriving DecidableEq, Repr

/-! ## Authenticator classification (from the source) -/

/-- Classifier `isPasskeyAuthenticator` (source lines 52-55): identifier equals the
platform passkey identifier `pk`, prompt type `InternalPrompt`, and a truthy
`additionalData.challengeData`. The passkey identifier constant lives in the
external `@asgardeo/browser` package, so it is a parameter here. -/
def isPasskeyAuthenticator (pk : String) (a : Authenticator) : Bool :=
  a.authenticatorId = pk &&
  metaPromptType a = some PromptType.internalPrompt &&
  truthyS (challengeDataOf a)

/-- The `HIDDEN_AUTHENTICATORS` deny-list (source line 190). -/
def HIDDEN_AUTHENTICATORS : List String :=
  ["T3JnYW5pemF0aW9uQXV0aGVudGljYXRvcjpTU08"]

/-- The `userPromptAuthenticators` filter of the multi-option render (source
lines 979-984): explicit `UserPrompt`, or fallback `LOCAL` idp with declared
params. -/
def isUserPromptLike (a : Authenticator) : Bool :=
  metaPromptType a = some PromptType.userPrompt ||
  (a.idp = "LOCAL" && (metaParams a).length > 0)

/-- The `userPromptAuthenticators` list (source lines 979-984). -/
def userPromptAuths (auths : List Authenticator) : List Authenticator :=
  auths.filter isUserPromptLike

/-- The `optionAuthenticators` list (source lines 986-988): the remaining
authenticators with the hidden-authenticator deny-list applied. -/
def optionAuths (auths : List Authenticator) : List Authenticator :=
  (auths.filter fun a => !(userPromptAuths auths).contains a).filter
    fun a => !HIDDEN_AUTHENTICATORS.contains a.authenticatorId

/-- The shape test of `handleRedirectionIfNeeded` (source lines 296-308):
a `nextStep` of type `AuthenticatorPrompt` with exactly one authenticator
whose prompt type is `RedirectionPrompt` and which carries a truthy
`additionalData.redirectUrl`. -/
def redirectShape (r : FlowResponse) : Bool :=
  match r.nextStep with
  | some step =>
    step.stepType = StepType.authenticatorPrompt &&
    (match step.authenticators with
     | [a] => metaPromptType a = some PromptType.redirectionPrompt &&
              truthyS (redirectUrlOf a)
     | _ => false)
  | none => false

/-- Predicate for `handleRedirectionIfNeeded` returning `true`: it does iff the redirect shape matches
and the popup could be opened (`window.open` succeeding is the environment
input `popupOpens`; on failure the source logs and returns `false`). -/
def handleRedirection (r : FlowResponse) (popupOpens : Bool) : Bool :=
  redirectShape r && popupOpens

/-! ## Redirect completion coordinator

Model of the popup coordination set up by `handleRedirectionIfNeeded`
(source lines 309-449) once the popup has been opened: the `message` event
listener (`messageEventHandler`, lines 323-367), the `cleanup` closure
(lines 369-374) and the `popupMonitor` interval callback (lines 381-449).

Both handlers are `async` and contain an `await onSubmit(...)`; an `await`
yields the event loop, so a handler body runs in two pieces: the
synchronous span up to (and including the start of) the `await`, and the
continuation after it, resumed later with the transport's response. The
model reflects this: a `message`/`pollTick` event runs only the
synchronous span, a completed submission parks a pending continuation,
and a separate `resume` event (the scheduler delivering the promise
resolution, carrying the transport's response) runs the continuation.
Other events may be delivered in between — this is exactly the
interleaving window the source leaves open. -/

/-- Configuration fixed for one redirect attempt: the `afterSignInUrl` prop,
the host origin (`window.location.origin`), and the flow/authenticator
identifiers captured by the handler closures. -/
structure RedirectConfig where
  afterSignInUrl : Option String
  hostOrigin : String
  flowId : String
  authenticatorId : String
deriving DecidableEq, Repr

/-- Derivation `afterSignInUrl ? new URL(afterSignInUrl).origin : window.location.origin`
(source line 338). -/
def expectedOrigin (cfg : RedirectConfig) : String :=
  match cfg.afterSignInUrl with
  | some u => if u.data.isEmpty then cfg.hostOrigin else urlOrigin u
  | none => cfg.hostOrigin

/-- Possible `event.source` values of a message event. -/
inductive WinRef
  | popupWin
  | hostWin
  | parentWin
  | otherWin
deriving DecidableEq, Repr

/-- The `event.data` of a cross-window message (`{code, state}` schema). -/
structure MsgData where
  code : Option String := none
  state : Option String := none
deriving DecidableEq, Repr

/-- Which handler produced a submission (model bookkeeping: the source calls
the same `onSubmit` transport from both handlers). -/
inductive Channel
  | msgCh
  | pollCh
deriving DecidableEq, Repr

/-- A continuation parked at an `await onSubmit(...)`, waiting for the
promise to resolve: the rest of `messageEventHandler` after its await
(`popup.close(); cleanup();`, source lines 362-363), or the rest of the
poll callback after its await (`popup.close(); onFlowChange?.(response);
if (... SuccessCompleted) onSuccess?.(...)`, source lines 433-439). -/
inductive PendingK
  | msgFinish
  | pollFinish
deriving DecidableEq, Repr

/-- Coordinator state after `begin`: listener attached, interval running,
`hasProcessedCallback` latch, popup-closed flag, the continuations parked
at an `await`, and the observable calls made so far (transport submissions
with their originating channel, `onFlowChange` and `onSuccess` invocation
counts). -/
structure CoordState where
  listenerActive : Bool
  timerActive : Bool
  hasProcessedCallback : Bool
  popupClosed : Bool
  pending : List PendingK
  submissions : List (Channel × SubmissionPayload)
  flowChangeCount : Nat
  successCount : Nat
deriving DecidableEq, Repr

/-- State immediately after the popup was opened, the listener added and the
interval started (source lines 313, 376, 382). -/
def initCoordState : CoordState :=
  { listenerActive := true
    timerActive := true
    hasProcessedCallback := false
    popupClosed := false
    pending := []
    submissions := []
    flowChangeCount := 0
    successCount := 0 }

/-- Events delivered to the coordinator: a cross-window message, an interval
tick (with the result of reading `popup.location.href`, `none` for a
cross-origin read failure), the user closing the popup, or the event loop
resuming the `n`-th parked continuation with the response the transport
returned for its submission. -/
inductive CoordEvent
  | message (src : WinRef) (origin : String) (data : MsgData)
  | pollTick (urlRead : Option String)
  | userClosesPopup
  | resume (n : Nat) (resp : FlowResponse)
deriving DecidableEq, Repr

/-- The OAuth payload both handlers build:
`{flowId, selectedAuthenticator: {authenticatorId, params: {code, state}}}`. -/
def mkRedirectPayload (cfg : RedirectConfig) (code state : String) : SubmissionPayload :=
  { flowId := cfg.flowId
    authenticatorId := cfg.authenticatorId
    params := [("code", code), ("state", state)] }

/-- Handler `messageEventHandler`, synchronous span (source lines 323-361).
A message whose source is not the popup, or whose origin matches neither
the expected origin nor the host origin, is ignored with no state change.
On a truthy `{code, state}` the handler builds the payload and calls the
transport (`await onSubmit`, line 357): the submission is recorded and the
rest of the handler — `popup.close(); cleanup();` — is parked as a
`msgFinish` continuation. When the listener has been removed no handler
runs. -/
def messageStep (cfg : RedirectConfig) (st : CoordState) (src : WinRef)
    (origin : String) (data : MsgData) : CoordState :=
  if !st.listenerActive then st
  else if src ≠ WinRef.popupWin then st
  else if origin ≠ expectedOrigin cfg && origin ≠ cfg.hostOrigin then st
  else if truthyS data.code && truthyS data.state then
    { st with
      submissions := st.submissions ++
        [(Channel.msgCh, mkRedirectPayload cfg (data.code.getD "") (data.state.getD ""))]
      pending := st.pending ++ [PendingK.msgFinish] }
  else st

/-- The `popupMonitor` interval callback, synchronous span (source lines
382-431). When the popup is closed it runs `cleanup` and returns. When
`hasProcessedCallback` is set it returns. A URL read failure is swallowed.
A URL containing `code=` or `error=` sets the latch; a truthy `error`
closes the popup and runs `cleanup` (all before any await); a truthy
`code` and `state` record the submission (`await onSubmit`, line 428) and
park the rest of the callback — `popup.close(); onFlowChange; onSuccess on
success` — as a `pollFinish` continuation. No `cleanup` is parked on that
path. -/
def pollStep (cfg : RedirectConfig) (st : CoordState) (urlRead : Option String) :
    CoordState :=
  if !st.timerActive then st
  else if st.popupClosed then
    { st with listenerActive := false, timerActive := false }
  else if st.hasProcessedCallback then st
  else
    match urlRead with
    | none => st
    | some url =>
      if !url.data.isEmpty && (jsIncludes url "code=" || jsIncludes url "error=") then
        if truthyS (searchParamGet url "error") then
          { st with
            hasProcessedCallback := true
            popupClosed := true
            listenerActive := false
            timerActive := false }
        else if truthyS (searchParamGet url "code") &&
                truthyS (searchParamGet url "state") then
          { st with
            hasProcessedCallback := true
            submissions := st.submissions ++
              [(Channel.pollCh,
                mkRedirectPayload cfg ((searchParamGet url "code").getD "")
                  ((searchParamGet url "state").getD ""))]
            pending := st.pending ++ [PendingK.pollFinish] }
        else { st with hasProcessedCallback := true }
      else st

/-- Run a parked continuation with the response its `await` resolved to:
`msgFinish` closes the popup and runs `cleanup` (the response is unused —
the source discards it); `pollFinish` closes the popup, invokes
`onFlowChange` and, on `SuccessCompleted`, `onSuccess` — without running
`cleanup`. -/
def runK (k : PendingK) (resp : FlowResponse) (st : CoordState) : CoordState :=
  match k with
  | PendingK.msgFinish =>
    { st with popupClosed := true, listenerActive := false, timerActive := false }
  | PendingK.pollFinish =>
    { st with
      popupClosed := true
      flowChangeCount := st.flowChangeCount + 1
      successCount :=
        if resp.flowStatus = FlowStatus.successCompleted then st.successCount + 1
        else st.successCount }

/-- One coordinator step for one delivered event. A `resume` of an index
with no parked continuation is a no-op. -/
def coordStep (cfg : RedirectConfig) (st : CoordState) : CoordEvent → CoordState
  | CoordEvent.message src origin data => messageStep cfg st src origin data
  | CoordEvent.pollTick urlRead => pollStep cfg st urlRead
  | CoordEvent.userClosesPopup => { st with popupClosed := true }
  | CoordEvent.resume n resp =>
    match st.pending[n]? with
    | none => st
    | some k => runK k resp { st with pending := st.pending.eraseIdx n }

/-- Run the coordinator over a sequence of delivered events. -/
def runCoord (cfg : RedirectConfig) (st : CoordState) : List CoordEvent → CoordState
  | [] => st
  | e :: es => runCoord cfg (coordStep cfg st e) es

/-- Number of submissions made by a given channel. -/
def chanCount (c : Channel) (st : CoordState) : Nat :=
  (st.submissions.filter fun p => p.1 = c).length

/-- Both the listener and the timer have been released. -/
def released (st : CoordState) : Bool :=
  !st.listenerActive && !st.timerActive

/-! ## Flow controller

Model of the `BaseSignInContent` flow logic: the component state
(`currentFlow`, `currentAuthenticator`, `error`, `messages`, form values)
plus the observable external calls (transport submissions, `onFlowChange`,
`onSuccess`, credential-ceremony invocations, form setups). -/

/-- The distinct error texts the component can set via `setError`. -/
inductive ErrMsg
  | completionFailure
  | missingChallengeData
  | passkeyCompletionFailure
  | passkeyGeneric
  | authFailedCredentials
  | authFailedTryAgain
deriving DecidableEq, Repr

/-- Controller state: the React component state of `BaseSignInContent`
together with counters for the observable external calls. -/
structure CState where
  currentFlow : Option FlowResponse
  currentAuthenticator : Option Authenticator
  error : Option ErrMsg
  messages : List (String × String)
  formValues : List (String × String)
  submissionsSent : List SubmissionPayload
  flowChangeCount : Nat
  successCount : Nat
  ceremonyCount : Nat
  formSetups : Nat
  redirectsStarted : Nat
deriving DecidableEq, Repr

/-- The blank initial form values `setupFormFields` produces for an
authenticator (source lines 265-281: reset, then one empty entry per
declared param). -/
def blankFields (a : Authenticator) : List (String × String) :=
  (metaParams a).map fun p => (p.param, "")

/-- Effect of `setCurrentAuthenticator(a)` followed by `setupFormFields(a)`; counts as
one surfaced form setup. -/
def setupAuth (st : CState) (a : Authenticator) : CState :=
  { st with
    currentAuthenticator := some a
    formValues := blankFields a
    formSetups := st.formSetups + 1 }

/-- Effect of `setMessages(step.messages.map(...))` with the `|| 'INFO'` / `|| ''`
defaults, applied only when the step carries a `messages` key. -/
def applyStepMessages (st : CState) (step : Step) : CState :=
  match step.messages with
  | some ms =>
    { st with messages := ms.map fun m => (m.type.getD "INFO", m.message.getD "") }
  | none => st

/-- Validation `validateForm()` of the `useForm` instance. The form fields are derived
from `currentAuthenticator` (source lines 227-238); each field's validator
reports an error iff the param is required and its value is blank. With no
selected authenticator there are no fields and validation passes. The
`useForm` hook itself is outside `src/`; its validation is modelled from the
field validators that are in the source. -/
def validateFormOk (st : CState) : Bool :=
  match st.currentAuthenticator with
  | none => true
  | some a =>
    (metaParams a).all fun p =>
      !(a.requiredParams.contains p.param) || !(blankVal (lookupVal st.formValues p.param))

/-- The shared next-step block of `handleSubmit` (source lines 510-535): on a
response carrying `flowId`/`nextStep`, store the flow; with a non-empty
authenticator list, clear the selection for a `MultiOptionsPrompt` step with
more than one authenticator, otherwise select the first authenticator and
set up its form; then apply the step messages. -/
def processNextStep (st : CState) (r : FlowResponse) : CState :=
  match r.nextStep with
  | none => st
  | some step =>
    let st1 := { st with currentFlow := some r }
    let st2 :=
      match step.authenticators with
      | [] => st1
      | a :: rest =>
        if step.stepType = StepType.multiOptionsPrompt && (a :: rest).length > 1 then
          { st1 with currentAuthenticator := none }
        else setupAuth st1 a
    applyStepMessages st2 step

/-- Handler `handleSubmit` (source lines 460-543). Guard on a stored flow and a
selected authenticator; local validation; then submit (clearing error and
messages first) and dispatch on the response: `SuccessCompleted` invokes
`onSuccess`; `FailCompleted`/`FailIncomplete` set the single generic
completion-failure error; a redirect-shaped response (with the popup
opening) hands off to the redirect coordinator; otherwise the next step is
processed. `resp` is the response the `onSubmit` transport returns and
`popupOpens` whether `window.open` would succeed. -/
def handleSubmit (st : CState) (vals : List (String × String))
    (resp : FlowResponse) (popupOpens : Bool) : CState :=
  match st.currentFlow, st.currentAuthenticator with
  | some flow, some auth =>
    if !validateFormOk st then st
    else
      let st1 :=
        { st with
          error := none
          messages := []
          submissionsSent := st.submissionsSent ++
            [{ flowId := flow.flowId, authenticatorId := auth.authenticatorId, params := vals }]
          flowChangeCount := st.flowChangeCount + 1 }
      if resp.flowStatus = FlowStatus.successCompleted then
        { st1 with successCount := st1.successCount + 1 }
      else if resp.flowStatus = FlowStatus.failCompleted ||
              resp.flowStatus = FlowStatus.failIncomplete then
        { st1 with error := some ErrMsg.completionFailure }
      else if handleRedirection resp popupOpens then
        { st1 with redirectsStarted := st1.redirectsStarted + 1 }
      else processNextStep st1 resp
  | _, _ => st

/-- The mount-time effect around `onInitialize` (source lines 913-959):
store the response, invoke `onFlowChange`; on `SuccessCompleted` invoke
`onSuccess`; otherwise auto-select a sole authenticator (clearing the
selection for a multi-option step with more than one) and apply the step
messages. `resp` is the response `onInitialize` returns. -/
def initFlow (st : CState) (resp : FlowResponse) : CState :=
  let st1 :=
    { st with currentFlow := some resp, flowChangeCount := st.flowChangeCount + 1 }
  if resp.flowStatus = FlowStatus.successCompleted then
    { st1 with successCount := st1.successCount + 1 }
  else
    let st2 :=
      match resp.nextStep with
      | none => st1
      | some step =>
        match step.authenticators with
        | [] => st1
        | a :: rest =>
          if step.stepType = StepType.multiOptionsPrompt && (a :: rest).length > 1 then
            { st1 with currentAuthenticator := none }
          else setupAuth st1 a
    match resp.nextStep with
    | none => st2
    | some step => applyStepMessages st2 step

/-- Modelled from the spec: the credential ceremony interface
`(challengeData) -> tokenResponse` (`handleWebAuthnAuthentication` lives in
the external `@asgardeo/browser` package); the result is an opaque value
forwarded as `params.tokenResponse`. -/
def webAuthnToken (challenge : String) : String :=
  "tokenResponse:" ++ challenge

/-- The token payload submitted after a credential ceremony (source lines
576-584). -/
def tokenPayload (flow : FlowResponse) (auth : Authenticator) : SubmissionPayload :=
  { flowId := flow.flowId
    authenticatorId := auth.authenticatorId
    params := [("tokenResponse", webAuthnToken ((challengeDataOf auth).getD ""))] }

/-- The empty-params payload (redirection-prompt and no-params direct
submissions, source lines 655-661 and 754-760). -/
def emptyPayload (flow : FlowResponse) (auth : Authenticator) : SubmissionPayload :=
  { flowId := flow.flowId, authenticatorId := auth.authenticatorId, params := [] }

/-- The form-data payload (source lines 683-689). -/
def fdPayload (flow : FlowResponse) (auth : Authenticator)
    (fd : List (String × String)) : SubmissionPayload :=
  { flowId := flow.flowId, authenticatorId := auth.authenticatorId, params := fd }

/-- The shared next-step block of `handleAuthenticatorSelection` (source
lines 606-638, duplicated at 715-747 and 786-818): store the flow, clear
the selection for a multi-option step with more than one authenticator,
auto-chain (returning the authenticator to re-invoke, before any message
update — the source `return`s before `setMessages`) when the sole next
authenticator is a passkey, otherwise select it and set up its form. -/
def processStepChain (pk : String) (st : CState) (r : FlowResponse) :
    CState × Option Authenticator :=
  match r.nextStep with
  | none => (st, none)
  | some step =>
    let st5 := { st with currentFlow := some r }
    match step.authenticators with
    | [] => (applyStepMessages st5 step, none)
    | a :: rest2 =>
      if step.stepType = StepType.multiOptionsPrompt && (a :: rest2).length > 1 then
        (applyStepMessages { st5 with currentAuthenticator := none } step, none)
      else if isPasskeyAuthenticator pk a then (st5, some a)
      else (applyStepMessages (setupAuth st5 a) step, none)

/-- The response dispatch shared by the passkey, form-data and no-params
branches of `handleAuthenticatorSelection` (source lines 592-638, 697-747,
768-818): `SuccessCompleted` fires the success callback; a fail status sets
the branch's error message; the form-data/no-params branches (and only
they, `checkRedirect`) try the redirect hand-off; otherwise the next step
is processed with possible passkey auto-chaining. -/
def respDispatch (pk : String) (popupOpens : Bool) (failMsg : ErrMsg)
    (checkRedirect : Bool) (st : CState) (r : FlowResponse) :
    CState × Option Authenticator :=
  if r.flowStatus = FlowStatus.successCompleted then
    ({ st with successCount := st.successCount + 1 }, none)
  else if r.flowStatus = FlowStatus.failCompleted ||
          r.flowStatus = FlowStatus.failIncomplete then
    ({ st with error := some failMsg }, none)
  else if checkRedirect && handleRedirection r popupOpens then
    ({ st with redirectsStarted := st.redirectsStarted + 1 }, none)
  else processStepChain pk st r

/-- Handler `handleAuthenticatorSelection` (source lines 548-832). Guard on a stored
flow; clear error and messages; then four branches: (1) a passkey
authenticator runs the credential ceremony (after the defensive
challenge-data check) and submits the token, auto-chaining into the next
step's sole authenticator when that is also a passkey; (2) a
redirection-prompt authenticator submits empty params and hands a
redirect-shaped response to the redirect coordinator (source lines
654-676: no fail handling, no next-step processing in that branch); (3)
with form data, validate locally then submit the data; (4) otherwise
submit directly when the authenticator declares no params, else surface
its form. Each `await onSubmit` consumes the next response from `resps`;
if no response remains the run stops right after recording the
submission. -/
def handleAuthSel (pk : String) (popupOpens : Bool) :
    Authenticator → Option (List (String × String)) → CState → List FlowResponse → CState
  | auth, formData, st, resps =>
    match st.currentFlow with
    | none => st
    | some flow =>
      let st1 := { st with error := none, messages := [] }
      if isPasskeyAuthenticator pk auth then
        if !truthyS (challengeDataOf auth) then
          { st1 with error := some ErrMsg.missingChallengeData }
        else
          let st3 :=
            { st1 with
              ceremonyCount := st1.ceremonyCount + 1
              submissionsSent := st1.submissionsSent ++ [tokenPayload flow auth] }
          match resps with
          | [] => st3
          | r :: rest =>
            match respDispatch pk popupOpens ErrMsg.passkeyCompletionFailure false
                { st3 with flowChangeCount := st3.flowChangeCount + 1 } r with
            | (st2, some a) => handleAuthSel pk popupOpens a none st2 rest
            | (st2, none) => st2
      else if metaPromptType auth = some PromptType.redirectionPrompt then
        let st2 :=
          { st1 with submissionsSent := st1.submissionsSent ++ [emptyPayload flow auth] }
        match resps with
        | [] => st2
        | r :: _ =>
          let st3 := { st2 with flowChangeCount := st2.flowChangeCount + 1 }
          if r.flowStatus = FlowStatus.successCompleted then
            { st3 with successCount := st3.successCount + 1 }
          else if handleRedirection r popupOpens then
            { st3 with redirectsStarted := st3.redirectsStarted + 1 }
          else st3
      else
        match formData with
        | some fd =>
          if !validateFormOk st1 then st1
          else
            let st2 :=
              { st1 with submissionsSent := st1.submissionsSent ++ [fdPayload flow auth fd] }
            match resps with
            | [] => st2
            | r :: rest =>
              match respDispatch pk popupOpens ErrMsg.authFailedCredentials true
                  { st2 with flowChangeCount := st2.flowChangeCount + 1 } r with
              | (st4, some a) => handleAuthSel pk popupOpens a none st4 rest
              | (st4, none) => st4
        | none =>
          if (metaParamsOpt auth).isNone || metaParams auth = [] then
            let st2 :=
              { st1 with submissionsSent := st1.submissionsSent ++ [emptyPayload flow auth] }
            match resps with
            | [] => st2
            | r :: rest =>
              match respDispatch pk popupOpens ErrMsg.authFailedTryAgain true
                  { st2 with flowChangeCount := st2.flowChangeCount + 1 } r with
              | (st4, some a) => handleAuthSel pk popupOpens a none st4 rest
              | (st4, none) => st4
          else setupAuth st1 auth

/-- Check `hasMultipleOptions()` (source lines 845-853). -/
def hasMultipleOptions (st : CState) : Bool :=
  match st.currentFlow with
  | some f =>
    match f.nextStep with
    | some step =>
      step.stepType = StepType.multiOptionsPrompt && step.authenticators.length > 1
    | none => false
  | none => false

/-- The render condition of the idle choose-one screen (source line 976):
multiple options are offered and no authenticator is selected. -/
def showsChooseOne (st : CState) : Bool :=
  hasMultipleOptions st && st.currentAuthenticator.isNone

/-! ## Derived predicates and concrete fixtures -/

/-- The latch invariant actually maintained by the coordinator: the
`hasProcessedCallback` latch is set synchronously (before the `await`) the
moment the poll channel submits and is never cleared, so the poll channel
submits at most once; the message channel maintains no such invariant. -/
def CoordInv (st : CoordState) : Prop :=
  chanCount Channel.pollCh st ≤ 1 ∧
  (1 ≤ chanCount Channel.pollCh st → st.hasProcessedCallback = true)

/-- A run of consecutive passkey steps: every response but the last is
`InProgress` with a sole passkey authenticator in its next step, and the
last response completes the flow with `SuccessCompleted`. -/
def passkeyChainOk (pk : String) : List FlowResponse → Bool
  | [] => false
  | [r] => r.flowStatus = FlowStatus.successCompleted
  | r :: rest =>
    r.flowStatus = FlowStatus.inProgress &&
    (match r.nextStep with
     | some step =>
       (match step.authenticators with
        | [a] => isPasskeyAuthenticator pk a && passkeyChainOk pk rest
        | _ => false)
     | none => false)

/-- Concrete redirect configuration for witnesses and counterexamples. -/
def cfgA : RedirectConfig :=
  { afterSignInUrl := none
    hostOrigin := "https://app.example.com"
    flowId := "flow-1"
    authenticatorId := "auth-oidc" }

/-- Concrete in-progress response. -/
def respInProgA : FlowResponse :=
  { flowId := "flow-1", flowStatus := FlowStatus.inProgress }

/-- Concrete successful response. -/
def respSuccessA : FlowResponse :=
  { flowId := "flow-1", flowStatus := FlowStatus.successCompleted }

/-- A poll tick observing the OAuth callback URL with `code` and `state`. -/
def evPollOkA : CoordEvent :=
  CoordEvent.pollTick (some "https://app.example.com/cb?code=abc&state=xyz")

/-- A trusted message from the popup carrying the same `code`/`state`. -/
def evMsgOkA : CoordEvent :=
  CoordEvent.message WinRef.popupWin "https://app.example.com"
    { code := some "abc", state := some "xyz" }

/-- Concrete basic authenticator with no declared params. -/
def authBasicA : Authenticator :=
  { authenticatorId := "basic"
    idp := "LOCAL"
    metadata := some { promptType := some PromptType.userPrompt, params := some [] } }

/-- Concrete current flow. -/
def flowA : FlowResponse :=
  { flowId := "flow-1", flowStatus := FlowStatus.inProgress
    links := [{ method := "POST", href := "https://api.example.com/submit" }] }

/-- Concrete redirection-prompt authenticator carrying a redirect URL. -/
def authRedirA : Authenticator :=
  { authenticatorId := "oidc-auth"
    metadata := some
      { promptType := some PromptType.redirectionPrompt
        additionalData := some { redirectUrl := some "https://idp.example.com/auth" } } }

/-- Concrete submit response whose single authenticator is the redirection
authenticator. -/
def respRedirA : FlowResponse :=
  { flowId := "flow-2", flowStatus := FlowStatus.inProgress
    nextStep := some
      { stepType := StepType.authenticatorPrompt, authenticators := [authRedirA] } }

/-- Concrete controller state with a stored flow and a selected
authenticator. -/
def stA : CState :=
  { currentFlow := some flowA
    currentAuthenticator := some authBasicA
    error := none
    messages := []
    formValues := []
    submissionsSent := []
    flowChangeCount := 0
    successCount := 0
    ceremonyCount := 0
    formSetups := 0
    redirectsStarted := 0 }

/-- Concrete `FailIncomplete` response. -/
def respFailIncompleteA : FlowResponse :=
  { flowId := "flow-1", flowStatus := FlowStatus.failIncomplete }

/-- Concrete `FailCompleted` response. -/
def respFailCompleteA : FlowResponse :=
  { flowId := "flow-1", flowStatus := FlowStatus.failCompleted }

/-- Concrete platform-passkey identifier. -/
def pkA : String := "UGFzc2tleUF1dGhlbnRpY2F0b3I"

/-- Concrete passkey authenticator with the given challenge data. -/
def mkPasskeyA (challenge : String) : Authenticator :=
  { authenticatorId := pkA
    metadata := some
      { promptType := some PromptType.internalPrompt
        additionalData := some { challengeData := some challenge } } }

/-- Concrete chain response offering the given sole authenticator. -/
def chainRespA (a : Authenticator) : FlowResponse :=
  { flowId := "flow-c", flowStatus := FlowStatus.inProgress
    nextStep := some { stepType := StepType.authenticatorPrompt, authenticators := [a] } }

/-- Concrete authenticator with one required `username` param. -/
def authReqA : Authenticator :=
  { authenticatorId := "basic"
    idp := "LOCAL"
    metadata := some
      { promptType := some PromptType.userPrompt, params := some [{ param := "username" }] }
    requiredParams := ["username"] }

/-- Concrete controller state whose selected authenticator has a blank
required field. -/
def stReqA : CState :=
  { stA with currentAuthenticator := some authReqA, formValues := [("username", "")] }

/-- Concrete multi-option step offering one local form authenticator and one
deny-listed authenticator. -/
def stepMultiA : Step :=
  { stepType := StepType.multiOptionsPrompt
    authenticators :=
      [authReqA,
       { authenticatorId := "T3JnYW5pemF0aW9uQXV0aGVudGljYXRvcjpTU08" }] }

/-- Concrete multi-option response. -/
def respMultiA : FlowResponse :=
  { flowId := "flow-3", flowStatus := FlowStatus.inProgress, nextStep := some stepMultiA }

/-! ## Coordinator lemmas -/

/-- Once both channels are released, a step neither submits nor reactivates
anything (resuming a leftover continuation keeps them released and adds no
submission). -/
theorem coordStep_after_release (cfg : RedirectConfig) (st : CoordState) (e : CoordEvent)
    (h : released st = true) :
    (coordStep cfg st e).submissions = st.submissions ∧
    released (coordStep cfg st e) = true := by
  simp only [released, Bool.and_eq_true, Bool.not_eq_true'] at h
  cases e with
  | message src origin data =>
    simp [coordStep, messageStep, h.1, released, h.2]
  | pollTick urlRead =>
    simp [coordStep, pollStep, h.2, released, h.1]
  | userClosesPopup =>
    simp [coordStep, released, h.1, h.2]
  | resume n resp =>
    rcases hk : st.pending[n]? with _ | k
    · simp [coordStep, hk, released, h.1, h.2]
    · cases k with
      | msgFinish => simp [coordStep, hk, runK, released]
      | pollFinish => simp [coordStep, hk, runK, released, h.1, h.2]

/-- A whole run after release leaves the submission log unchanged and the
channels released. -/
theorem runCoord_after_release (cfg : RedirectConfig) (es : List CoordEvent) :
    ∀ st : CoordState, released st = true →
      (runCoord cfg st es).submissions = st.submissions ∧
      released (runCoord cfg st es) = true := by
  induction es with
  | nil => intro st h; exact ⟨rfl, h⟩
  | cons e es ih =>
    intro st h
    obtain ⟨h1, h2⟩ := coordStep_after_release cfg st e h
    obtain ⟨h3, h4⟩ := ih (coordStep cfg st e) h2
    exact ⟨by rw [runCoord, h3, h1], by rw [runCoord]; exact h4⟩

/-- Outcome analysis for the synchronous span of the message handler:
either the event is ignored (state unchanged), or the listener was active
and a trusted `{code, state}` message submitted once and parked the
handler's continuation — nothing else changes before the `await`
resolves. -/
theorem messageStep_cases (cfg : RedirectConfig) (st : CoordState) (src : WinRef)
    (origin : String) (data : MsgData) :
    messageStep cfg st src origin data = st ∨
    (st.listenerActive = true ∧
     messageStep cfg st src origin data =
       { st with
         submissions := st.submissions ++
           [(Channel.msgCh, mkRedirectPayload cfg (data.code.getD "") (data.state.getD ""))]
         pending := st.pending ++ [PendingK.msgFinish] }) := by
  unfold messageStep
  split
  · exact Or.inl rfl
  · rename_i hact
    split
    · exact Or.inl rfl
    · split
      · exact Or.inl rfl
      · split
        · exact Or.inr ⟨by simpa using hact, rfl⟩
        · exact Or.inl rfl

/-- Outcome analysis for the synchronous span of the poll handler: the tick
is ignored, or it runs `cleanup` on a closed popup, or it sets the latch
without submitting, or it sets the latch and releases on an `error` marker
(all synchronous), or — with the timer active, the popup open and the
latch clear — it sets the latch, submits once and parks the callback's
continuation, releasing nothing. -/
theorem pollStep_cases (cfg : RedirectConfig) (st : CoordState)
    (urlRead : Option String) :
    pollStep cfg st urlRead = st ∨
    (st.timerActive = true ∧ st.popupClosed = true ∧
     pollStep cfg st urlRead =
       { st with listenerActive := false, timerActive := false }) ∨
    (st.timerActive = true ∧ st.popupClosed = false ∧ st.hasProcessedCallback = false ∧
     (pollStep cfg st urlRead = { st with hasProcessedCallback := true } ∨
      pollStep cfg st urlRead =
        { st with
          hasProcessedCallback := true
          popupClosed := true
          listenerActive := false
          timerActive := false } ∨
      ∃ url : String,
        urlRead = some url ∧
        pollStep cfg st urlRead =
          { st with
            hasProcessedCallback := true
            submissions := st.submissions ++
              [(Channel.pollCh,
                mkRedirectPayload cfg ((searchParamGet url "code").getD "")
                  ((searchParamGet url "state").getD ""))]
            pending := st.pending ++ [PendingK.pollFinish] })) := by
  unfold pollStep
  split
  · exact Or.inl rfl
  · rename_i htim
    split
    · rename_i hcl
      exact Or.inr (Or.inl ⟨by simpa using htim, hcl, rfl⟩)
    · rename_i hcl
      split
      · exact Or.inl rfl
      · rename_i hlat
        split
        · exact Or.inl rfl
        · rename_i url
          split
          · split
            · refine Or.inr (Or.inr ⟨by simpa using htim, by simpa using hcl,
                by simpa using hlat, Or.inr (Or.inl rfl)⟩)
            · split
              · refine Or.inr (Or.inr ⟨by simpa using htim, by simpa using hcl,
                  by simpa using hlat, Or.inr (Or.inr ⟨url, rfl, rfl⟩)⟩)
              · refine Or.inr (Or.inr ⟨by simpa using htim, by simpa using hcl,
                  by simpa using hlat, Or.inl rfl⟩)
          · exact Or.inl rfl

/-- One coordinator step preserves the poll-channel latch invariant. -/
theorem coordStep_inv (cfg : RedirectConfig) (st : CoordState) (e : CoordEvent)
    (h : CoordInv st) : CoordInv (coordStep cfg st e) := by
  obtain ⟨h1, h2⟩ := h
  cases e with
  | message src origin data =>
    rcases messageStep_cases cfg st src origin data with heq | ⟨_, heq⟩
    · rw [coordStep, heq]; exact ⟨h1, h2⟩
    · rw [coordStep, heq]
      constructor
      · simpa [chanCount, List.filter_append] using h1
      · intro hp
        exact h2 (by simpa [chanCount, List.filter_append] using hp)
  | pollTick urlRead =>
    rcases pollStep_cases cfg st urlRead with heq | ⟨_, _, heq⟩ |
      ⟨htim, _, hlat, heq | heq | ⟨url, _, heq⟩⟩
    · rw [coordStep, heq]; exact ⟨h1, h2⟩
    · rw [coordStep, heq]; exact ⟨h1, h2⟩
    · rw [coordStep, heq]; exact ⟨h1, fun _ => rfl⟩
    · rw [coordStep, heq]; exact ⟨h1, fun _ => rfl⟩
    · have hpoll0 : chanCount Channel.pollCh st = 0 := by
        by_contra hne
        have := h2 (Nat.one_le_iff_ne_zero.mpr hne)
        rw [this] at hlat
        exact absurd hlat (by simp)
      rw [coordStep, heq]
      refine ⟨?_, fun _ => rfl⟩
      · simp [chanCount, List.filter_append]
        simpa [chanCount] using Nat.le_of_eq hpoll0
  | userClosesPopup =>
    exact ⟨h1, h2⟩
  | resume n resp =>
    rcases hk : st.pending[n]? with _ | k
    · simpa [coordStep, hk] using ⟨h1, h2⟩
    · cases k with
      | msgFinish => simpa [coordStep, hk, runK, chanCount] using ⟨h1, h2⟩
      | pollFinish => simpa [coordStep, hk, runK, chanCount] using ⟨h1, h2⟩

/-- Every reachable coordinator state satisfies the latch invariant. -/
theorem runCoord_inv (cfg : RedirectConfig) (es : List CoordEvent) :
    ∀ st : CoordState, CoordInv st → CoordInv (runCoord cfg st es) := by
  induction es with
  | nil => intro st h; exact h
  | cons e es ih => intro st h; exact ih _ (coordStep_inv cfg st e h)

/-- The initial coordinator state satisfies the invariant. -/
theorem initCoordState_inv : CoordInv initCoordState := by
  refine ⟨?_, ?_⟩ <;> simp [CoordInv, chanCount, initCoordState]

/-- Running a concatenated event sequence runs the pieces in order. -/
theorem runCoord_append (cfg : RedirectConfig) (pre post : List CoordEvent) :
    ∀ st : CoordState,
      runCoord cfg st (pre ++ post) = runCoord cfg (runCoord cfg st pre) post := by
  induction pre with
  | nil => intro st; rfl
  | cons e es ih => intro st; simp only [List.cons_append, runCoord]; exact ih _

/-- C1 counterexample: both channels extract the same valid
`{code, state}` and each submits — two submissions for one redirect
attempt — in either delivery order. Poll first: the poll handler sets the
latch and submits, but the message handler never consults the latch and
the listener is still attached, so the popup's message submits again.
Message first: the message handler's `cleanup` only runs after its
`await`, so a poll tick delivered in that window finds the latch clear and
the popup open and submits again. -/
theorem c1_double_submission :
    (chanCount Channel.pollCh (runCoord cfgA initCoordState [evPollOkA, evMsgOkA]) = 1 ∧
     chanCount Channel.msgCh (runCoord cfgA initCoordState [evPollOkA, evMsgOkA]) = 1 ∧
     (runCoord cfgA initCoordState [evPollOkA, evMsgOkA]).submissions.length = 2) ∧
    (chanCount Channel.msgCh (runCoord cfgA initCoordState [evMsgOkA, evPollOkA]) = 1 ∧
     chanCount Channel.pollCh (runCoord cfgA initCoordState [evMsgOkA, evPollOkA]) = 1 ∧
     (runCoord cfgA initCoordState [evMsgOkA, evPollOkA]).submissions.length = 2) := by
  decide

/-- C1 (amended): the latch yields only a poll-channel guarantee:
`hasProcessedCallback` is set synchronously before the poll handler's
`await`, so over any event delivery for one redirect attempt the poll
channel submits at most once; and once the message listener and the poll
timer have been released, no further submission from either channel occurs
for the rest of the run. The message channel is not guarded by the latch,
and its own `cleanup` runs only in the continuation after its `await`, so
cross-channel exactly-once does not hold. -/
theorem c1_poll_latch_only (cfg : RedirectConfig) (evs : List CoordEvent) :
    chanCount Channel.pollCh (runCoord cfg initCoordState evs) ≤ 1 ∧
    ∀ pre post, evs = pre ++ post →
      released (runCoord cfg initCoordState pre) = true →
      (runCoord cfg initCoordState evs).submissions =
        (runCoord cfg initCoordState pre).submissions := by
  have hinv := runCoord_inv cfg evs initCoordState initCoordState_inv
  refine ⟨hinv.1, ?_⟩
  intro pre post hsplit hrel
  rw [hsplit, runCoord_append]
  exact (runCoord_after_release cfg post _ hrel).1

/-- C1 witness: after the trusted message completes and its continuation
has run `cleanup` (channels released), a later poll tick adds no
submission; and the poll-channel count of that run is at most one. -/
theorem c1_poll_latch_only_witness :
    chanCount Channel.pollCh (runCoord cfgA initCoordState
      [evMsgOkA, CoordEvent.resume 0 respInProgA, evPollOkA]) ≤ 1 ∧
    (runCoord cfgA initCoordState
      [evMsgOkA, CoordEvent.resume 0 respInProgA, evPollOkA]).submissions =
      (runCoord cfgA initCoordState
        [evMsgOkA, CoordEvent.resume 0 respInProgA]).submissions := by
  refine ⟨(c1_poll_latch_only cfgA
    [evMsgOkA, CoordEvent.resume 0 respInProgA, evPollOkA]).1, ?_⟩
  exact (c1_poll_latch_only cfgA
    [evMsgOkA, CoordEvent.resume 0 respInProgA, evPollOkA]).2
    [evMsgOkA, CoordEvent.resume 0 respInProgA] [evPollOkA] rfl (by decide)

/-- C2 counterexample: when the poll channel extracts `{code, state}`, the
handler submits and — in its continuation — closes the popup, but never
runs the release step: the message listener and the timer are still active
after that exit completes. -/
theorem c2_poll_completion_no_release :
    chanCount Channel.pollCh (runCoord cfgA initCoordState
      [evPollOkA, CoordEvent.resume 0 respSuccessA]) = 1 ∧
    (runCoord cfgA initCoordState
      [evPollOkA, CoordEvent.resume 0 respSuccessA]).popupClosed = true ∧
    released (runCoord cfgA initCoordState
      [evPollOkA, CoordEvent.resume 0 respSuccessA]) = false := by
  decide

/-- C2 (amended): the release step (remove listener, clear timer) runs on
the message-channel completion exit — the handler parks its continuation
and resuming a parked message continuation releases — and runs
synchronously on a poll-channel `error` completion and on a tick observing
a closed popup (user closure); but a poll-channel `{code, state}`
completion releases nothing, neither in its synchronous span nor in its
continuation (which only closes the popup and fires the callbacks): the
resources are released only by a subsequent poll tick observing the closed
popup. After release, every further event keeps the channels released and
adds no submission. -/
theorem c2_release_paths (cfg : RedirectConfig) (st : CoordState) :
    (∀ src origin data,
       st.listenerActive = true → src = WinRef.popupWin →
       (origin = expectedOrigin cfg ∨ origin = cfg.hostOrigin) →
       truthyS data.code = true → truthyS data.state = true →
       (coordStep cfg st (CoordEvent.message src origin data)).pending =
         st.pending ++ [PendingK.msgFinish]) ∧
    (∀ n resp, st.pending[n]? = some PendingK.msgFinish →
       released (coordStep cfg st (CoordEvent.resume n resp)) = true ∧
       (coordStep cfg st (CoordEvent.resume n resp)).popupClosed = true) ∧
    (∀ url,
       st.timerActive = true → st.popupClosed = false → st.hasProcessedCallback = false →
       url.data.isEmpty = false → jsIncludes url "error=" = true →
       truthyS (searchParamGet url "error") = true →
       released (coordStep cfg st (CoordEvent.pollTick (some url))) = true) ∧
    (∀ url, st.timerActive = true → st.popupClosed = true →
       released (coordStep cfg st (CoordEvent.pollTick url)) = true) ∧
    (∀ url resp url2,
       st.timerActive = true → st.listenerActive = true → st.popupClosed = false →
       st.hasProcessedCallback = false → st.pending = [] →
       url.data.isEmpty = false → jsIncludes url "code=" = true →
       truthyS (searchParamGet url "error") = false →
       truthyS (searchParamGet url "code") = true →
       truthyS (searchParamGet url "state") = true →
       released (coordStep cfg st (CoordEvent.pollTick (some url))) = false ∧
       released (coordStep cfg (coordStep cfg st (CoordEvent.pollTick (some url)))
         (CoordEvent.resume 0 resp)) = false ∧
       (coordStep cfg (coordStep cfg st (CoordEvent.pollTick (some url)))
         (CoordEvent.resume 0 resp)).popupClosed = true ∧
       released (coordStep cfg
         (coordStep cfg (coordStep cfg st (CoordEvent.pollTick (some url)))
           (CoordEvent.resume 0 resp))
         (CoordEvent.pollTick url2)) = true) ∧
    (∀ e, released st = true →
       released (coordStep cfg st e) = true ∧
       (coordStep cfg st e).submissions = st.submissions) := by
  refine ⟨?_, ?_, ?_, ?_, ?_, ?_⟩
  · intro src origin data hact hsrc horig hc hs
    rcases horig with horig | horig <;>
      simp [coordStep, messageStep, hact, hsrc, horig, hc, hs]
  · intro n resp hk
    simp [coordStep, hk, runK, released]
  · intro url htim hcl hlat hne hinc herr
    simp [coordStep, pollStep, htim, hcl, hlat, hne, hinc, herr, released]
  · intro url htim hcl
    simp [coordStep, pollStep, htim, hcl, released]
  · intro url resp url2 htim hact hcl hlat hp hne hinc herr hc hs
    refine ⟨?_, ?_, ?_, ?_⟩
    · simp [coordStep, pollStep, htim, hcl, hlat, hne, hinc, herr, hc, hs, released, hact]
    · simp [coordStep, pollStep, htim, hcl, hlat, hne, hinc, herr, hc, hs, hp, runK,
        released, hact]
    · simp [coordStep, pollStep, htim, hcl, hlat, hne, hinc, herr, hc, hs, hp, runK]
    · simp [coordStep, pollStep, htim, hcl, hlat, hne, hinc, herr, hc, hs, hp, runK,
        released]
  · intro e hrel
    obtain ⟨h1, h2⟩ := coordStep_after_release cfg st e hrel
    exact ⟨h2, h1⟩

/-- C2 witness: the concrete trusted message parks its continuation and
resuming it releases; the concrete poll `{code, state}` completion (sync
span, then its continuation) never releases, and the following tick
does. -/
theorem c2_release_paths_witness :
    (coordStep cfgA initCoordState
      (CoordEvent.message WinRef.popupWin "https://app.example.com"
        { code := some "abc", state := some "xyz" })).pending = [PendingK.msgFinish] ∧
    released (coordStep cfgA { initCoordState with pending := [PendingK.msgFinish] }
      (CoordEvent.resume 0 respInProgA)) = true ∧
    released (coordStep cfgA initCoordState
      (CoordEvent.pollTick (some "https://app.example.com/cb?code=abc&state=xyz"))) =
      false ∧
    released (coordStep cfgA
      (coordStep cfgA
        (coordStep cfgA initCoordState
          (CoordEvent.pollTick (some "https://app.example.com/cb?code=abc&state=xyz")))
        (CoordEvent.resume 0 respSuccessA))
      (CoordEvent.pollTick none)) = true := by
  have h := c2_release_paths cfgA initCoordState
  have h2 := c2_release_paths cfgA { initCoordState with pending := [PendingK.msgFinish] }
  refine ⟨?_, ?_, ?_, ?_⟩
  · simpa using h.1 WinRef.popupWin "https://app.example.com"
      { code := some "abc", state := some "xyz" } (by decide) rfl (Or.inr rfl)
      (by decide) (by decide)
  · exact (h2.2.1 0 respInProgA rfl).1
  · exact (h.2.2.2.2.1 "https://app.example.com/cb?code=abc&state=xyz" respSuccessA none
      (by decide) (by decide) (by decide) (by decide) rfl (by decide) (by decide)
      (by decide) (by decide) (by decide)).1
  · exact (h.2.2.2.2.1 "https://app.example.com/cb?code=abc&state=xyz" respSuccessA none
      (by decide) (by decide) (by decide) (by decide) rfl (by decide) (by decide)
      (by decide) (by decide) (by decide)).2.2.2

/-- C3: a message event whose source is not the opened popup, or whose
origin matches neither the expected origin (derived from `afterSignInUrl`,
falling back to the host origin) nor the host origin, leaves the
coordinator state entirely unchanged: no extraction, no submission, no
state change (the rejecting checks are fully synchronous). -/
theorem c3_untrusted_messages_ignored (cfg : RedirectConfig) (st : CoordState)
    (src : WinRef) (origin : String) (data : MsgData)
    (h : src ≠ WinRef.popupWin ∨ (origin ≠ expectedOrigin cfg ∧ origin ≠ cfg.hostOrigin)) :
    coordStep cfg st (CoordEvent.message src origin data) = st := by
  rcases h with h | ⟨h1, h2⟩
  · simp [coordStep, messageStep, h]
  · simp [coordStep, messageStep, h1, h2]

/-- C3 witness: a valid-looking `{code, state}` message from a foreign
window and origin is ignored. -/
theorem c3_untrusted_messages_ignored_witness :
    coordStep cfgA initCoordState
      (CoordEvent.message WinRef.otherWin "https://evil.example.com"
        { code := some "abc", state := some "xyz" }) = initCoordState :=
  c3_untrusted_messages_ignored cfgA initCoordState WinRef.otherWin
    "https://evil.example.com" { code := some "abc", state := some "xyz" }
    (Or.inl (by decide))

/-- C10: the message-channel completion path discards the transport
response and never invokes the callbacks: the synchronous span fires
neither callback, and resuming the message handler's continuation yields a
state independent of the response with both callback counts unchanged —
even on `SuccessCompleted` — whereas resuming the poll completion's
continuation invokes the flow-change callback and, on a `SuccessCompleted`
response, the success callback. -/
theorem c10_message_discards_response (cfg : RedirectConfig) (st : CoordState) :
    (∀ src origin data,
       (coordStep cfg st (CoordEvent.message src origin data)).flowChangeCount =
         st.flowChangeCount ∧
       (coordStep cfg st (CoordEvent.message src origin data)).successCount =
         st.successCount) ∧
    (∀ n resp1 resp2, st.pending[n]? = some PendingK.msgFinish →
       coordStep cfg st (CoordEvent.resume n resp1) =
         coordStep cfg st (CoordEvent.resume n resp2)) ∧
    (∀ n resp, st.pending[n]? = some PendingK.msgFinish →
       (coordStep cfg st (CoordEvent.resume n resp)).flowChangeCount =
         st.flowChangeCount ∧
       (coordStep cfg st (CoordEvent.resume n resp)).successCount = st.successCount) ∧
    (∀ n resp, st.pending[n]? = some PendingK.pollFinish →
       (coordStep cfg st (CoordEvent.resume n resp)).flowChangeCount =
         st.flowChangeCount + 1 ∧
       (resp.flowStatus = FlowStatus.successCompleted →
         (coordStep cfg st (CoordEvent.resume n resp)).successCount =
           st.successCount + 1)) := by
  refine ⟨?_, ?_, ?_, ?_⟩
  · intro src origin data
    rcases messageStep_cases cfg st src origin data with heq | ⟨_, heq⟩ <;>
      rw [coordStep, heq] <;> exact ⟨rfl, rfl⟩
  · intro n resp1 resp2 hk
    simp [coordStep, hk, runK]
  · intro n resp hk
    simp [coordStep, hk, runK]
  · intro n resp hk
    constructor
    · simp [coordStep, hk, runK]
    · intro hsucc
      simp [coordStep, hk, runK, hsucc]

/-- C10 witness: resuming a concrete message continuation with a successful
response fires no callback and equals resuming it with an in-progress
response; resuming a concrete poll continuation with a successful response
fires both. -/
theorem c10_message_discards_response_witness :
    (coordStep cfgA { initCoordState with pending := [PendingK.msgFinish] }
      (CoordEvent.resume 0 respSuccessA)).successCount = 0 ∧
    coordStep cfgA { initCoordState with pending := [PendingK.msgFinish] }
      (CoordEvent.resume 0 respSuccessA) =
      coordStep cfgA { initCoordState with pending := [PendingK.msgFinish] }
        (CoordEvent.resume 0 respInProgA) ∧
    (coordStep cfgA { initCoordState with pending := [PendingK.pollFinish] }
      (CoordEvent.resume 0 respSuccessA)).flowChangeCount = 1 ∧
    (coordStep cfgA { initCoordState with pending := [PendingK.pollFinish] }
      (CoordEvent.resume 0 respSuccessA)).successCount = 1 := by
  have h := c10_message_discards_response cfgA
    { initCoordState with pending := [PendingK.msgFinish] }
  have h2 := c10_message_discards_response cfgA
    { initCoordState with pending := [PendingK.pollFinish] }
  refine ⟨?_, ?_, ?_, ?_⟩
  · simpa using (h.2.2.1 0 respSuccessA rfl).2
  · exact h.2.1 0 respSuccessA respInProgA rfl
  · simpa using (h2.2.2.2 0 respSuccessA rfl).1
  · simpa using (h2.2.2.2 0 respSuccessA rfl).2 rfl

/-! ## Controller lemmas -/

/-- Applying step messages only changes the `messages` field. -/
theorem applyStepMessages_fields (st : CState) (step : Step) :
    (applyStepMessages st step).currentFlow = st.currentFlow ∧
    (applyStepMessages st step).currentAuthenticator = st.currentAuthenticator ∧
    (applyStepMessages st step).formValues = st.formValues ∧
    (applyStepMessages st step).submissionsSent = st.submissionsSent ∧
    (applyStepMessages st step).error = st.error ∧
    (applyStepMessages st step).ceremonyCount = st.ceremonyCount ∧
    (applyStepMessages st step).formSetups = st.formSetups ∧
    (applyStepMessages st step).successCount = st.successCount ∧
    (applyStepMessages st step).flowChangeCount = st.flowChangeCount := by
  cases h : step.messages <;> simp [applyStepMessages, h]

@[simp] theorem applyStepMessages_currentFlow (st : CState) (step : Step) :
    (applyStepMessages st step).currentFlow = st.currentFlow :=
  (applyStepMessages_fields st step).1

@[simp] theorem applyStepMessages_currentAuthenticator (st : CState) (step : Step) :
    (applyStepMessages st step).currentAuthenticator = st.currentAuthenticator :=
  (applyStepMessages_fields st step).2.1

@[simp] theorem applyStepMessages_formValues (st : CState) (step : Step) :
    (applyStepMessages st step).formValues = st.formValues :=
  (applyStepMessages_fields st step).2.2.1

@[simp] theorem applyStepMessages_submissionsSent (st : CState) (step : Step) :
    (applyStepMessages st step).submissionsSent = st.submissionsSent :=
  (applyStepMessages_fields st step).2.2.2.1

@[simp] theorem applyStepMessages_error (st : CState) (step : Step) :
    (applyStepMessages st step).error = st.error :=
  (applyStepMessages_fields st step).2.2.2.2.1

@[simp] theorem applyStepMessages_ceremonyCount (st : CState) (step : Step) :
    (applyStepMessages st step).ceremonyCount = st.ceremonyCount :=
  (applyStepMessages_fields st step).2.2.2.2.2.1

@[simp] theorem applyStepMessages_formSetups (st : CState) (step : Step) :
    (applyStepMessages st step).formSetups = st.formSetups :=
  (applyStepMessages_fields st step).2.2.2.2.2.2.1

@[simp] theorem applyStepMessages_successCount (st : CState) (step : Step) :
    (applyStepMessages st step).successCount = st.successCount :=
  (applyStepMessages_fields st step).2.2.2.2.2.2.2.1

@[simp] theorem applyStepMessages_flowChangeCount (st : CState) (step : Step) :
    (applyStepMessages st step).flowChangeCount = st.flowChangeCount :=
  (applyStepMessages_fields st step).2.2.2.2.2.2.2.2

@[simp] theorem setupAuth_currentAuthenticator (st : CState) (a : Authenticator) :
    (setupAuth st a).currentAuthenticator = some a := rfl

@[simp] theorem setupAuth_formValues (st : CState) (a : Authenticator) :
    (setupAuth st a).formValues = blankFields a := rfl

@[simp] theorem setupAuth_submissionsSent (st : CState) (a : Authenticator) :
    (setupAuth st a).submissionsSent = st.submissionsSent := rfl

@[simp] theorem setupAuth_error (st : CState) (a : Authenticator) :
    (setupAuth st a).error = st.error := rfl

@[simp] theorem setupAuth_currentFlow (st : CState) (a : Authenticator) :
    (setupAuth st a).currentFlow = st.currentFlow := rfl

@[simp] theorem setupAuth_ceremonyCount (st : CState) (a : Authenticator) :
    (setupAuth st a).ceremonyCount = st.ceremonyCount := rfl

@[simp] theorem setupAuth_formSetups (st : CState) (a : Authenticator) :
    (setupAuth st a).formSetups = st.formSetups + 1 := rfl

@[simp] theorem setupAuth_successCount (st : CState) (a : Authenticator) :
    (setupAuth st a).successCount = st.successCount := rfl

/-- Clearing error and messages does not affect validation (it reads only
the selected authenticator and the form values). -/
theorem validateFormOk_clear (st : CState) :
    validateFormOk { st with error := none, messages := [] } = validateFormOk st := rfl

/-- Processing a next step never records a submission. -/
theorem processNextStep_submissionsSent (st : CState) (r : FlowResponse) :
    (processNextStep st r).submissionsSent = st.submissionsSent := by
  cases h : r.nextStep with
  | none => simp [processNextStep, h]
  | some step =>
    cases ha : step.authenticators with
    | nil => simp [processNextStep, h, ha]
    | cons a rest =>
      simp only [processNextStep, h, ha]
      split <;> simp

/-- Under the submit guard and passing validation, `handleSubmit` records
exactly one submission, whatever the response is. -/
theorem handleSubmit_submits (st : CState) (vals : List (String × String))
    (resp : FlowResponse) (popupOpens : Bool) (flow : FlowResponse) (auth : Authenticator)
    (hf : st.currentFlow = some flow) (ha : st.currentAuthenticator = some auth)
    (hv : validateFormOk st = true) :
    (handleSubmit st vals resp popupOpens).submissionsSent =
      st.submissionsSent ++
        [{ flowId := flow.flowId, authenticatorId := auth.authenticatorId, params := vals }] := by
  by_cases h1 : resp.flowStatus = FlowStatus.successCompleted
  · simp [handleSubmit, hf, ha, hv, h1]
  · by_cases h2 : resp.flowStatus = FlowStatus.failCompleted ||
      resp.flowStatus = FlowStatus.failIncomplete
    · simp [handleSubmit, hf, ha, hv, h1, h2]
    · by_cases h3 : handleRedirection resp popupOpens = true
      · simp [handleSubmit, hf, ha, hv, h1, h2, h3]
      · simp [handleSubmit, hf, ha, hv, h1, h2, h3, processNextStep_submissionsSent]

/-- C4 counterexample: a submit response whose step offers exactly one
authenticator — a redirection-prompt one with a redirect URL — is handed to
the popup redirect handler instead of being auto-advanced: the selected
authenticator stays the old one and no field set is derived. -/
theorem c4_redirect_not_advanced :
    (handleSubmit stA [] respRedirA true).currentAuthenticator = some authBasicA ∧
    (handleSubmit stA [] respRedirA true).currentAuthenticator ≠ some authRedirA ∧
    (handleSubmit stA [] respRedirA true).formSetups = 0 ∧
    (handleSubmit stA [] respRedirA true).redirectsStarted = 1 := by
  decide

/-- C4 (amended): a response whose step offers exactly one authenticator is
auto-advanced to that authenticator with its field set derived — by the
initialize path always, and by the submit path unless the response is
terminal or matches the redirect hand-off shape (single redirection-prompt
authenticator with a redirect URL and an opening popup), in which case the
coordinator takes over instead; in every case no choose-one pause is
surfaced, and processing single-authenticator responses preserves the
absence of a choose-one pause. -/
theorem c4_single_auto_advance :
    (∀ (st : CState) (resp : FlowResponse) (step : Step) (a : Authenticator),
       resp.nextStep = some step → step.authenticators = [a] →
       resp.flowStatus ≠ FlowStatus.successCompleted →
       (initFlow st resp).currentAuthenticator = some a ∧
       (initFlow st resp).formValues = blankFields a ∧
       showsChooseOne (initFlow st resp) = false) ∧
    (∀ (st : CState) (vals : List (String × String)) (resp : FlowResponse)
       (popupOpens : Bool) (flow : FlowResponse) (auth : Authenticator)
       (step : Step) (a : Authenticator),
       st.currentFlow = some flow → st.currentAuthenticator = some auth →
       validateFormOk st = true →
       resp.flowStatus = FlowStatus.inProgress →
       resp.nextStep = some step → step.authenticators = [a] →
       handleRedirection resp popupOpens = false →
       (handleSubmit st vals resp popupOpens).currentAuthenticator = some a ∧
       (handleSubmit st vals resp popupOpens).formValues = blankFields a ∧
       showsChooseOne (handleSubmit st vals resp popupOpens) = false) ∧
    (∀ (st : CState) (vals : List (String × String)) (resp : FlowResponse)
       (popupOpens : Bool) (step : Step) (a : Authenticator),
       showsChooseOne st = false →
       resp.nextStep = some step → step.authenticators = [a] →
       showsChooseOne (handleSubmit st vals resp popupOpens) = false) := by
  refine ⟨?_, ?_, ?_⟩
  · intro st resp step a hns hauths hsucc
    simp [initFlow, hsucc, hns, hauths, showsChooseOne, hasMultipleOptions]
  · intro st vals resp popupOpens flow auth step a hf ha hv hst hns hauths hred
    simp [handleSubmit, hf, ha, hv, hst, hred, processNextStep, hns, hauths,
      showsChooseOne, hasMultipleOptions]
  · intro st vals resp popupOpens step a hch hns hauths
    rcases hf : st.currentFlow with _ | flow
    · simpa [handleSubmit, hf] using hch
    · rcases ha : st.currentAuthenticator with _ | auth
      · simpa [handleSubmit, hf, ha] using hch
      · by_cases hv : validateFormOk st = true
        · by_cases h1 : resp.flowStatus = FlowStatus.successCompleted
          · simp [handleSubmit, hf, ha, hv, h1, showsChooseOne, hasMultipleOptions]
          · by_cases h2 : resp.flowStatus = FlowStatus.failCompleted ||
              resp.flowStatus = FlowStatus.failIncomplete
            · simp [handleSubmit, hf, ha, hv, h1, h2, showsChooseOne, hasMultipleOptions]
            · by_cases h3 : handleRedirection resp popupOpens = true
              · simp [handleSubmit, hf, ha, hv, h1, h2, h3, showsChooseOne, hasMultipleOptions]
              · simp [handleSubmit, hf, ha, hv, h1, h2, h3, processNextStep, hns, hauths,
                  showsChooseOne, hasMultipleOptions]
        · have hv2 : validateFormOk st = false := by
            revert hv; cases validateFormOk st <;> simp
          simpa [handleSubmit, hf, ha, hv2] using hch

/-- C4 witness: a concrete in-progress single-authenticator submit response
is auto-advanced with its field set derived. -/
theorem c4_single_auto_advance_witness :
    (handleSubmit stA [] (chainRespA authReqA) true).currentAuthenticator = some authReqA ∧
    (handleSubmit stA [] (chainRespA authReqA) true).formValues = blankFields authReqA ∧
    showsChooseOne (handleSubmit stA [] (chainRespA authReqA) true) = false :=
  (c4_single_auto_advance).2.1 stA [] (chainRespA authReqA) true flowA authBasicA
    { stepType := StepType.authenticatorPrompt, authenticators := [authReqA] } authReqA
    rfl rfl (by decide) rfl rfl rfl (by decide)

/-- C5: a `MultiOptionsPrompt` step with more than one authenticator clears
the active-authenticator selection (both on the submit path and on the
initialize path), and the exposed selectable set is exactly the
non-direct-input authenticators of the step filtered by the
hidden-authenticator deny-list; a deny-listed identifier is never in the
exposed selectable set, even when it is the only selectable one. -/
theorem c5_multi_options_cleared_and_filtered :
    (∀ (st : CState) (r : FlowResponse) (step : Step),
       r.nextStep = some step → step.stepType = StepType.multiOptionsPrompt →
       step.authenticators.length > 1 →
       (processNextStep st r).currentAuthenticator = none ∧
       (r.flowStatus ≠ FlowStatus.successCompleted →
        (initFlow st r).currentAuthenticator = none)) ∧
    (∀ (auths : List Authenticator) (a : Authenticator), a ∈ auths →
       (a ∈ optionAuths auths ↔
        (isUserPromptLike a = false ∧ a.authenticatorId ∉ HIDDEN_AUTHENTICATORS))) ∧
    (∀ (auths : List Authenticator) (a : Authenticator),
       a.authenticatorId ∈ HIDDEN_AUTHENTICATORS → a ∉ optionAuths auths) := by
  refine ⟨?_, ?_, ?_⟩
  · intro st r step hns hmulti hlen
    rcases hauths : step.authenticators with _ | ⟨a, rest⟩
    · rw [hauths] at hlen; simp at hlen
    · rw [hauths] at hlen
      have hrest : 0 < rest.length := by
        simp [List.length_cons] at hlen; omega
      constructor
      · simp [processNextStep, hns, hauths, hmulti, hrest]
      · intro hsucc
        simp [initFlow, hsucc, hns, hauths, hmulti, hrest]
  · intro auths a ha
    simp [optionAuths, userPromptAuths, List.mem_filter, ha]
    exact ⟨fun h => ⟨h.2, h.1⟩, fun h => ⟨h.2, h.1⟩⟩
  · intro auths a hhid hmem
    have hp := List.of_mem_filter hmem
    simp at hp
    exact hp hhid

/-- C5 witness: the concrete multi-option response clears the selection, and
the deny-listed authenticator is excluded although it is the only
selectable (non-direct-input) one. -/
theorem c5_multi_options_witness :
    (processNextStep stA respMultiA).currentAuthenticator = none ∧
    { authenticatorId := "T3JnYW5pemF0aW9uQXV0aGVudGljYXRvcjpTU08", idp := "",
      metadata := none, requiredParams := [] } ∉
      optionAuths stepMultiA.authenticators := by
  constructor
  · exact ((c5_multi_options_cleared_and_filtered).1 stA respMultiA stepMultiA rfl rfl
      (by decide)).1
  · exact (c5_multi_options_cleared_and_filtered).2.2 stepMultiA.authenticators _ (by decide)

/-- C6 counterexample: after a `FailIncomplete` submit response the
controller only records the generic error: the stored flow and selected
authenticator are unchanged (no terminal state), and a further submit call
does not fail fast — it performs another network submission. -/
theorem c6_fail_not_terminal :
    (handleSubmit stA [] respFailIncompleteA true).error = some ErrMsg.completionFailure ∧
    (handleSubmit stA [] respFailIncompleteA true).currentFlow = some flowA ∧
    (handleSubmit stA [] respFailIncompleteA true).currentAuthenticator = some authBasicA ∧
    (handleSubmit (handleSubmit stA [] respFailIncompleteA true) []
        respFailIncompleteA true).submissionsSent.length = 2 := by
  decide

/-- C6 (amended): a `FailCompleted` and a `FailIncomplete` submit response
produce the same resulting state with the single generic completion-failure
error — the two statuses are not distinguished to the caller — but the
controller does not enter a terminal failed state: the stored flow and
selected authenticator are unchanged and a further submit call performs
another network submission instead of failing fast. -/
theorem c6_fail_generic_not_distinguished (st : CState) (vals : List (String × String))
    (r1 r2 r3 : FlowResponse) (popupOpens : Bool) (flow : FlowResponse) (auth : Authenticator)
    (hf : st.currentFlow = some flow) (ha : st.currentAuthenticator = some auth)
    (hv : validateFormOk st = true)
    (h1 : r1.flowStatus = FlowStatus.failCompleted ∨ r1.flowStatus = FlowStatus.failIncomplete)
    (h2 : r2.flowStatus = FlowStatus.failCompleted ∨ r2.flowStatus = FlowStatus.failIncomplete) :
    handleSubmit st vals r1 popupOpens = handleSubmit st vals r2 popupOpens ∧
    (handleSubmit st vals r1 popupOpens).error = some ErrMsg.completionFailure ∧
    (handleSubmit st vals r1 popupOpens).currentFlow = st.currentFlow ∧
    (handleSubmit st vals r1 popupOpens).currentAuthenticator = st.currentAuthenticator ∧
    (handleSubmit (handleSubmit st vals r1 popupOpens) vals r3
        popupOpens).submissionsSent.length = st.submissionsSent.length + 2 := by
  have hs1 : r1.flowStatus ≠ FlowStatus.successCompleted := by
    rcases h1 with h | h <;> rw [h] <;> simp
  have hs2 : r2.flowStatus ≠ FlowStatus.successCompleted := by
    rcases h2 with h | h <;> rw [h] <;> simp
  have hb1 : (r1.flowStatus = FlowStatus.failCompleted ||
      r1.flowStatus = FlowStatus.failIncomplete) = true := by
    rcases h1 with h | h <;> simp [h]
  have hb2 : (r2.flowStatus = FlowStatus.failCompleted ||
      r2.flowStatus = FlowStatus.failIncomplete) = true := by
    rcases h2 with h | h <;> simp [h]
  have heq1 : handleSubmit st vals r1 popupOpens =
      { st with
        error := some ErrMsg.completionFailure
        messages := []
        submissionsSent := st.submissionsSent ++
          [{ flowId := flow.flowId, authenticatorId := auth.authenticatorId, params := vals }]
        flowChangeCount := st.flowChangeCount + 1 } := by
    simp [handleSubmit, hf, ha, hv, hs1, hb1]
  have heq2 : handleSubmit st vals r2 popupOpens =
      { st with
        error := some ErrMsg.completionFailure
        messages := []
        submissionsSent := st.submissionsSent ++
          [{ flowId := flow.flowId, authenticatorId := auth.authenticatorId, params := vals }]
        flowChangeCount := st.flowChangeCount + 1 } := by
    simp [handleSubmit, hf, ha, hv, hs2, hb2]
  refine ⟨heq1.trans heq2.symm, by rw [heq1], by rw [heq1], by rw [heq1], ?_⟩
  rw [heq1]
  rw [handleSubmit_submits _ vals r3 popupOpens flow auth (by simpa using hf)
    (by simpa using ha) (by simpa [validateFormOk_clear] using hv)]
  simp

/-- C6 witness: the concrete fail responses are not distinguished and leave
the flow resubmittable. -/
theorem c6_fail_generic_witness :
    handleSubmit stA [] respFailIncompleteA true = handleSubmit stA [] respFailCompleteA true ∧
    (handleSubmit stA [] respFailIncompleteA true).error = some ErrMsg.completionFailure ∧
    (handleSubmit (handleSubmit stA [] respFailIncompleteA true) []
        respSuccessA true).submissionsSent.length = 2 := by
  have h := c6_fail_generic_not_distinguished stA [] respFailIncompleteA respFailCompleteA
    respSuccessA true flowA authBasicA rfl rfl (by decide) (Or.inr rfl) (Or.inl rfl)
  exact ⟨h.1, h.2.1, h.2.2.2.2⟩

/-- Unfolding of the passkey branch of `handleAuthSel` when a response is
available. -/
theorem handleAuthSel_passkey_cons (pk : String) (popupOpens : Bool)
    (auth : Authenticator) (st : CState) (flow : FlowResponse)
    (r : FlowResponse) (rest : List FlowResponse)
    (hf : st.currentFlow = some flow) (hpk : isPasskeyAuthenticator pk auth = true)
    (hchal : truthyS (challengeDataOf auth) = true) :
    handleAuthSel pk popupOpens auth none st (r :: rest) =
      match respDispatch pk popupOpens ErrMsg.passkeyCompletionFailure false
          { st with
            error := none
            messages := []
            ceremonyCount := st.ceremonyCount + 1
            submissionsSent := st.submissionsSent ++ [tokenPayload flow auth]
            flowChangeCount := st.flowChangeCount + 1 } r with
      | (st2, some a) => handleAuthSel pk popupOpens a none st2 rest
      | (st2, none) => st2 := by
  conv_lhs => rw [handleAuthSel]
  rw [hf]
  dsimp only
  rw [if_pos hpk]
  rw [if_neg (show ¬((!truthyS (challengeDataOf auth)) = true) by simp [hchal])]

/-- On an in-progress response, the passkey dispatch reduces to the shared
next-step processing. -/
theorem respDispatch_inProgress (pk : String) (popupOpens : Bool) (failMsg : ErrMsg)
    (st : CState) (r : FlowResponse) (hip : r.flowStatus = FlowStatus.inProgress) :
    respDispatch pk popupOpens failMsg false st r = processStepChain pk st r := by
  rw [respDispatch, hip]
  rfl

/-- On a successful response, the dispatch fires the success callback. -/
theorem respDispatch_success (pk : String) (popupOpens : Bool) (failMsg : ErrMsg)
    (checkRedirect : Bool) (st : CState) (r : FlowResponse)
    (hs : r.flowStatus = FlowStatus.successCompleted) :
    respDispatch pk popupOpens failMsg checkRedirect st r =
      ({ st with successCount := st.successCount + 1 }, none) := by
  rw [respDispatch, hs]
  rfl

/-- A next step carrying a sole passkey authenticator triggers the chain. -/
theorem processStepChain_single_passkey (pk : String) (st : CState) (r : FlowResponse)
    (step : Step) (a : Authenticator)
    (hns : r.nextStep = some step) (hla : step.authenticators = [a])
    (hapk : isPasskeyAuthenticator pk a = true) :
    processStepChain pk st r = ({ st with currentFlow := some r }, some a) := by
  rw [processStepChain, hns]
  dsimp only
  rw [hla]
  dsimp only
  rw [if_neg (show ¬((decide (step.stepType = StepType.multiOptionsPrompt) &&
    decide (([a] : List Authenticator).length > 1)) = true) by simp)]
  rw [if_pos hapk]

/-- Running a passkey chain of length N performs exactly N ceremonies and N
submissions, surfaces no form setup, never touches the selected
authenticator, and ends with one success callback. -/
theorem passkeyChain_run (pk : String) (popupOpens : Bool) :
    ∀ (rs : List FlowResponse) (st : CState) (auth : Authenticator) (flow : FlowResponse),
      st.currentFlow = some flow → isPasskeyAuthenticator pk auth = true →
      passkeyChainOk pk rs = true →
      (handleAuthSel pk popupOpens auth none st rs).ceremonyCount =
        st.ceremonyCount + rs.length ∧
      (handleAuthSel pk popupOpens auth none st rs).submissionsSent.length =
        st.submissionsSent.length + rs.length ∧
      (handleAuthSel pk popupOpens auth none st rs).formSetups = st.formSetups ∧
      (handleAuthSel pk popupOpens auth none st rs).currentAuthenticator =
        st.currentAuthenticator ∧
      (handleAuthSel pk popupOpens auth none st rs).successCount = st.successCount + 1 := by
  intro rs
  induction rs with
  | nil =>
    intro st auth flow hf hpk hchain
    simp [passkeyChainOk] at hchain
  | cons r rest ih =>
    intro st auth flow hf hpk hchain
    have hchal : truthyS (challengeDataOf auth) = true := by
      have h := hpk
      simp only [isPasskeyAuthenticator, Bool.and_eq_true] at h
      exact h.2
    cases rest with
    | nil =>
      have hsucc : r.flowStatus = FlowStatus.successCompleted := by
        simpa [passkeyChainOk] using hchain
      rw [handleAuthSel_passkey_cons pk popupOpens auth st flow r [] hf hpk hchal]
      rw [respDispatch_success pk popupOpens ErrMsg.passkeyCompletionFailure false _ r hsucc]
      simp
    | cons r2 rest2 =>
      simp only [passkeyChainOk, Bool.and_eq_true, decide_eq_true_eq] at hchain
      obtain ⟨hip, hrest0⟩ := hchain
      rcases hns : r.nextStep with _ | step
      · rw [hns] at hrest0; simp at hrest0
      · rw [hns] at hrest0
        simp only at hrest0
        rcases hla : step.authenticators with _ | ⟨a, rest3⟩
        · rw [hla] at hrest0; simp at hrest0
        · rw [hla] at hrest0
          cases rest3 with
          | cons b rest4 => simp at hrest0
          | nil =>
            simp only [Bool.and_eq_true] at hrest0
            obtain ⟨hapk, hchain2⟩ := hrest0
            rw [handleAuthSel_passkey_cons pk popupOpens auth st flow r (r2 :: rest2)
              hf hpk hchal]
            rw [respDispatch_inProgress pk popupOpens ErrMsg.passkeyCompletionFailure _ r hip]
            rw [processStepChain_single_passkey pk _ r step a hns hla hapk]
            dsimp only
            obtain ⟨ih1, ih2, ih3, ih4, ih5⟩ := ih
              { currentFlow := some r
                currentAuthenticator := st.currentAuthenticator
                error := none
                messages := []
                formValues := st.formValues
                submissionsSent := st.submissionsSent ++ [tokenPayload flow auth]
                flowChangeCount := st.flowChangeCount + 1
                successCount := st.successCount
                ceremonyCount := st.ceremonyCount + 1
                formSetups := st.formSetups
                redirectsStarted := st.redirectsStarted } a r rfl hapk hchain2
            refine ⟨?_, ?_, ?_, ?_, ?_⟩
            · rw [ih1]; simp [tokenPayload]; omega
            · rw [ih2]; simp [tokenPayload]; omega
            · rw [ih3]
            · rw [ih4]
            · rw [ih5]

/-- C7: a run of N consecutive passkey steps (N at least 2, modelled by a
chain of responses whose every non-final step offers a sole passkey
authenticator) auto-invokes the bridge for each step: exactly N credential
ceremonies and exactly N submissions occur, and no intermediate form render
is signaled in between (no form setup, selection untouched). -/
theorem c7_passkey_chain (pk : String) (popupOpens : Bool) (rs : List FlowResponse)
    (st : CState) (auth : Authenticator) (flow : FlowResponse)
    (hf : st.currentFlow = some flow) (hpk : isPasskeyAuthenticator pk auth = true)
    (hchain : passkeyChainOk pk rs = true) (_hlen : 2 ≤ rs.length) :
    (handleAuthSel pk popupOpens auth none st rs).ceremonyCount =
      st.ceremonyCount + rs.length ∧
    (handleAuthSel pk popupOpens auth none st rs).submissionsSent.length =
      st.submissionsSent.length + rs.length ∧
    (handleAuthSel pk popupOpens auth none st rs).formSetups = st.formSetups ∧
    (handleAuthSel pk popupOpens auth none st rs).currentAuthenticator =
      st.currentAuthenticator ∧
    (handleAuthSel pk popupOpens auth none st rs).successCount = st.successCount + 1 :=
  passkeyChain_run pk popupOpens rs st auth flow hf hpk hchain

/-- C7 witness: a concrete chain of two passkey steps yields two ceremonies,
two submissions, no form setup and one success. -/
theorem c7_passkey_chain_witness :
    (handleAuthSel pkA true (mkPasskeyA "c1") none stA
      [chainRespA (mkPasskeyA "c2"), respSuccessA]).ceremonyCount = 2 ∧
    (handleAuthSel pkA true (mkPasskeyA "c1") none stA
      [chainRespA (mkPasskeyA "c2"), respSuccessA]).submissionsSent.length = 2 ∧
    (handleAuthSel pkA true (mkPasskeyA "c1") none stA
      [chainRespA (mkPasskeyA "c2"), respSuccessA]).formSetups = 0 := by
  have h := c7_passkey_chain pkA true [chainRespA (mkPasskeyA "c2"), respSuccessA]
    stA (mkPasskeyA "c1") flowA rfl (by decide) (by decide) (by decide)
  refine ⟨?_, ?_, h.2.2.1⟩
  · rw [h.1]; rfl
  · rw [h.2.1]; rfl

/-- The passkey classification implies present (truthy) challenge data. -/
theorem isPasskey_truthy (pk : String) (a : Authenticator)
    (h : isPasskeyAuthenticator pk a = true) : truthyS (challengeDataOf a) = true := by
  simp only [isPasskeyAuthenticator, Bool.and_eq_true] at h
  exact h.2

/-- The first component of the next-step processing keeps the error field. -/
theorem processStepChain_error (pk : String) (st : CState) (r : FlowResponse) :
    (processStepChain pk st r).1.error = st.error := by
  rw [processStepChain]
  split
  · rfl
  · dsimp only
    split
    · simp
    · split
      · simp
      · split
        · rfl
        · simp

/-- The first component of the response dispatch keeps the error field or
sets the branch's fail message. -/
theorem respDispatch_error (pk : String) (popupOpens : Bool) (failMsg : ErrMsg)
    (checkRedirect : Bool) (st : CState) (r : FlowResponse) :
    (respDispatch pk popupOpens failMsg checkRedirect st r).1.error = st.error ∨
    (respDispatch pk popupOpens failMsg checkRedirect st r).1.error = some failMsg := by
  rw [respDispatch]
  split
  · exact Or.inl rfl
  · split
    · exact Or.inr rfl
    · split
      · exact Or.inl rfl
      · exact Or.inl (processStepChain_error pk st r)

/-- Component form of `respDispatch_error` for use with match equations. -/
theorem respDispatch_error_of_eq (pk : String) (popupOpens : Bool) (failMsg : ErrMsg)
    (checkRedirect : Bool) (st : CState) (r : FlowResponse) (st2 : CState)
    (oa : Option Authenticator)
    (heq : respDispatch pk popupOpens failMsg checkRedirect st r = (st2, oa)) :
    st2.error = st.error ∨ st2.error = some failMsg := by
  have h := respDispatch_error pk popupOpens failMsg checkRedirect st r
  rw [heq] at h
  exact h

/-- The missing-challenge-data error is never produced by
`handleAuthSel`: the defensive branch that would set it requires a passkey
classification with absent challenge data, which the classification rules
out, and every recursive invocation starts from a cleared error. -/
theorem handleAuthSel_error_inv (pk : String) (popupOpens : Bool) :
    ∀ (rs : List FlowResponse) (auth : Authenticator)
      (fd : Option (List (String × String))) (st : CState),
      st.error ≠ some ErrMsg.missingChallengeData →
      (handleAuthSel pk popupOpens auth fd st rs).error ≠
        some ErrMsg.missingChallengeData := by
  intro rs
  induction rs with
  | nil =>
    intro auth fd st hne
    rw [handleAuthSel]
    split
    · exact hne
    · dsimp only
      split
      · split
        · rename_i hpk htr
          exfalso
          rw [isPasskey_truthy pk auth hpk] at htr
          simp at htr
        · simp
      · split
        · simp
        · split
          · split
            · simp
            · simp
          · split
            · simp
            · simp
  | cons r rest ih =>
    intro auth fd st hne
    rw [handleAuthSel]
    split
    · exact hne
    · dsimp only
      split
      · split
        · rename_i hpk htr
          exfalso
          rw [isPasskey_truthy pk auth hpk] at htr
          simp at htr
        · split
          · rename_i st2 a heq
            apply ih
            rcases respDispatch_error_of_eq _ _ _ _ _ _ _ _ heq with h | h <;> rw [h] <;> simp
          · rename_i st2 heq
            rcases respDispatch_error_of_eq _ _ _ _ _ _ _ _ heq with h | h <;> rw [h] <;> simp
      · split
        · split
          · simp
          · split
            · simp
            · simp
        · split
          · split
            · simp
            · split
              · rename_i st2 a heq
                apply ih
                rcases respDispatch_error_of_eq _ _ _ _ _ _ _ _ heq with h | h <;> rw [h] <;> simp
              · rename_i st2 heq
                rcases respDispatch_error_of_eq _ _ _ _ _ _ _ _ heq with h | h <;> rw [h] <;> simp
          · split
            · split
              · rename_i st2 a heq
                apply ih
                rcases respDispatch_error_of_eq _ _ _ _ _ _ _ _ heq with h | h <;> rw [h] <;> simp
              · rename_i st2 heq
                rcases respDispatch_error_of_eq _ _ _ _ _ _ _ _ heq with h | h <;> rw [h] <;> simp
            · simp

/-- C8: the passkey classification guarantees challenge data is present, so
the defensive missing-challenge-data branch of the passkey resolution path
is unreachable: starting from any state whose error is not the
missing-challenge-data error, no run of the selection handler ever reports
it. -/
theorem c8_missing_challenge_unreachable :
    (∀ (pk : String) (a : Authenticator), isPasskeyAuthenticator pk a = true →
       truthyS (challengeDataOf a) = true) ∧
    (∀ (pk : String) (popupOpens : Bool) (rs : List FlowResponse)
       (auth : Authenticator) (fd : Option (List (String × String))) (st : CState),
       st.error ≠ some ErrMsg.missingChallengeData →
       (handleAuthSel pk popupOpens auth fd st rs).error ≠
         some ErrMsg.missingChallengeData) :=
  ⟨isPasskey_truthy, fun pk popupOpens => handleAuthSel_error_inv pk popupOpens⟩

/-- C8 witness: the concrete passkey authenticator has truthy challenge
data and a concrete run does not produce the missing-challenge error. -/
theorem c8_missing_challenge_unreachable_witness :
    truthyS (challengeDataOf (mkPasskeyA "c1")) = true ∧
    (handleAuthSel pkA true (mkPasskeyA "c1") none stA [respSuccessA]).error ≠
      some ErrMsg.missingChallengeData :=
  ⟨c8_missing_challenge_unreachable.1 pkA (mkPasskeyA "c1") (by decide),
   c8_missing_challenge_unreachable.2 pkA true [respSuccessA] (mkPasskeyA "c1") none stA
     (by decide)⟩

/-- C9: when local validation fails — the selected authenticator has a
required param whose form value is blank — the submit transport is never
invoked: `handleSubmit` returns the state unchanged, and the form-data
branch of the selection handler records no submission. -/
theorem c9_validation_blocks_transport :
    (∀ (st : CState) (vals : List (String × String)) (resp : FlowResponse)
       (popupOpens : Bool) (flow : FlowResponse) (auth : Authenticator),
       st.currentFlow = some flow → st.currentAuthenticator = some auth →
       validateFormOk st = false →
       handleSubmit st vals resp popupOpens = st) ∧
    (∀ (pk : String) (popupOpens : Bool) (auth : Authenticator)
       (fd : List (String × String)) (st : CState) (rs : List FlowResponse)
       (flow : FlowResponse),
       st.currentFlow = some flow →
       isPasskeyAuthenticator pk auth = false →
       metaPromptType auth ≠ some PromptType.redirectionPrompt →
       validateFormOk st = false →
       (handleAuthSel pk popupOpens auth (some fd) st rs).submissionsSent =
         st.submissionsSent) := by
  constructor
  · intro st vals resp popupOpens flow auth hf ha hv
    simp [handleSubmit, hf, ha, hv]
  · intro pk popupOpens auth fd st rs flow hf hpk hrp hv
    rw [handleAuthSel]
    split
    · rfl
    · dsimp only
      rw [if_neg (show ¬(isPasskeyAuthenticator pk auth = true) by simp [hpk])]
      rw [if_neg (show ¬(metaPromptType auth = some PromptType.redirectionPrompt) from hrp)]
      have hv1 : validateFormOk { st with error := none, messages := [] } = false := hv
      rw [if_pos (show (!validateFormOk { st with error := none, messages := [] }) = true
        by simp [hv1])]

/-- C9 witness: a blank required `username` blocks the transport on both
paths. -/
theorem c9_validation_blocks_transport_witness :
    handleSubmit stReqA [("username", "")] respSuccessA true = stReqA ∧
    (handleAuthSel pkA true authReqA (some [("username", "")]) stReqA
      [respSuccessA]).submissionsSent = [] := by
  constructor
  · exact c9_validation_blocks_transport.1 stReqA [("username", "")] respSuccessA true
      flowA authReqA rfl rfl (by decide)
  · exact c9_validation_blocks_transport.2 pkA true authReqA [("username", "")] stReqA
      [respSuccessA] flowA rfl (by decide) (by decide) (by decide)

end AuthFlow
